import Mathlib

/-!
Verification of the DIEN model builder (deepctr/models/dien.py).

The Python source builds a symbolic Keras/TensorFlow graph.  We embed it at
two levels:

1. A symbolic level: `Tensor` captures the graph nodes that the functions
   `interest_evolution` and `DIEN` construct (DynamicGRU layers, the
   attention pooling layer, slicing ops, and the auxiliary-loss node), and
   the Lean functions `interest_evolution` and `DIEN` mirror the control
   flow of the Python functions of the same names, with Python exceptions
   embedded as `Except.error`.

2. A numeric level: `auxiliary_net` and `auxiliary_loss` give the
   real-valued semantics of the corresponding Python functions, with
   TensorFlow name-scoped variables (`tf.AUTO_REUSE`) embedded as a store
   `TFVars` mapping variable names to parameter records.

The `DynamicGRU` layer implementation lives in deepctr/layers/sequence.py,
which is not part of the sources under review; the recurrences it performs
are modelled from the specification (`maskedRecur`, `gruStep`, `augruStep`).
-/

/-- Symbolic tensors: the graph nodes constructed by `interest_evolution`
and `DIEN` in deepctr/models/dien.py.  `dynamicGRU` carries
(units, gru type, return_sequence, layer name, input, length);
`dynamicGRUAtt` additionally carries the attention-score input;
`attSeqPool` is `AttentionSequencePoolingLayer` with
(hidden_size, activation, weight_normalization, return_score, query, keys,
length); `sliceDropLast` is `x[:, :-1, :]`, `sliceDropFirst` is
`x[:, 1:, :]`, `subtractOne` is `tf.subtract(x, 1)`, `permute21` is
`Permute([2, 1])`, and `auxLossT` records a call of `auxiliary_loss` with
its four tensor arguments and the `stag` string. -/
inductive Tensor where
  | var : String → Tensor
  | dynamicGRU : Nat → String → Bool → String → Tensor → Tensor → Tensor
  | dynamicGRUAtt : Nat → String → Bool → String → Tensor → Tensor → Tensor → Tensor
  | attSeqPool : List Nat → String → Bool → Bool → Tensor → Tensor → Tensor → Tensor
  | sliceDropLast : Tensor → Tensor
  | sliceDropFirst : Tensor → Tensor
  | subtractOne : Tensor → Tensor
  | permute21 : Tensor → Tensor
  | mul : Tensor → Tensor → Tensor
  | auxLossT : Tensor → Tensor → Tensor → Tensor → String → Tensor
  deriving DecidableEq

/-- The list of accepted gru_type strings (dien.py line 94). -/
def gru_types : List String := ["GRU", "AIGRU", "AGRU", "AUGRU"]

/-- Embedding of `interest_evolution` (dien.py lines 92-132).  The raised
`ValueError` on an unknown gru_type, and the `TypeError` that Python raises
when `neg_concat_behavior` is `None` yet subscripted, are embedded as
`Except.error`.  The returned pair is (hist, aux_loss_1). -/
def interest_evolution (concat_behavior deep_input_item user_behavior_length : Tensor)
    (gru_type : String) (use_neg : Bool) (neg_concat_behavior : Option Tensor)
    (embedding_size : Nat) (att_hidden_size : List Nat) (att_activation : String)
    (att_weight_normalization : Bool) : Except String (Tensor × Option Tensor) :=
  if gru_type ∈ gru_types then
    let rnn_outputs := Tensor.dynamicGRU (embedding_size * 2) "GRU" true "gru1"
      concat_behavior user_behavior_length
    let auxRes : Except String (Option Tensor) :=
      if gru_type = "AUGRU" ∧ use_neg = true then
        match neg_concat_behavior with
        | some neg =>
            Except.ok (some (Tensor.auxLossT (Tensor.sliceDropLast rnn_outputs)
              (Tensor.sliceDropFirst concat_behavior) (Tensor.sliceDropFirst neg)
              (Tensor.subtractOne user_behavior_length) "gru"))
        | none => Except.error "TypeError: NoneType object is not subscriptable"
      else Except.ok none
    match auxRes with
    | Except.error e => Except.error e
    | Except.ok aux_loss_1 =>
      if gru_type = "GRU" then
        let rnn_outputs2 := Tensor.dynamicGRU (embedding_size * 2) "GRU" true "gru2"
          rnn_outputs user_behavior_length
        let hist := Tensor.attSeqPool att_hidden_size att_activation
          att_weight_normalization false deep_input_item rnn_outputs2 user_behavior_length
        Except.ok (hist, aux_loss_1)
      else
        let scores := Tensor.attSeqPool att_hidden_size att_activation
          att_weight_normalization true deep_input_item rnn_outputs user_behavior_length
        if gru_type = "AIGRU" then
          let hist := Tensor.mul rnn_outputs (Tensor.permute21 scores)
          let final_state2 := Tensor.dynamicGRU (embedding_size * 2) "GRU" false "gru2"
            hist user_behavior_length
          Except.ok (final_state2, aux_loss_1)
        else
          let final_state2 := Tensor.dynamicGRUAtt (embedding_size * 2) gru_type false "gru2"
            rnn_outputs user_behavior_length (Tensor.permute21 scores)
          Except.ok (final_state2, aux_loss_1)
  else Except.error "gru_type error "

/-- The part of a built DIEN model that the claims are about: the pooled
interest tensor wired into the deep input, and the loss added by
`model.add_loss` (the auxiliary-loss weight alpha together with the
auxiliary-loss tensor), if any. -/
structure DIENModel where
  hist : Tensor
  addedAuxLoss : Option (ℝ × Tensor)

/-- Embedding of the parts of `DIEN` (dien.py lines 135-223) that the
claims depend on.  The embedding-lookup plumbing is represented by opaque
input tensors (`Tensor.var`); `neg_concat_behavior` is built exactly when
`use_negsampling` is true (lines 186-194); `model.add_loss(alpha * aux_loss_1)`
is evaluated whenever `use_negsampling` is true (lines 221-222), and
multiplying the float `alpha` with a `None` auxiliary loss is the Python
`TypeError`, embedded as `Except.error`. -/
def DIEN (gru_type : String) (use_negsampling : Bool) (alpha : ℝ) (embedding_size : Nat)
    (att_hidden_size : List Nat) (att_activation : String) (att_weight_normalization : Bool) :
    Except String DIENModel :=
  let keys_emb := Tensor.var "keys_emb"
  let query_emb := Tensor.var "query_emb"
  let user_behavior_length := Tensor.var "seq_length"
  let neg_concat_behavior : Option Tensor :=
    if use_negsampling then some (Tensor.var "neg_concat_behavior") else none
  match interest_evolution keys_emb query_emb user_behavior_length gru_type use_negsampling
      neg_concat_behavior embedding_size att_hidden_size att_activation
      att_weight_normalization with
  | Except.error e => Except.error e
  | Except.ok (hist, aux_loss_1) =>
    if use_negsampling then
      match aux_loss_1 with
      | none => Except.error "TypeError: unsupported operand type for mul: float and NoneType"
      | some aux => Except.ok ⟨hist, some (alpha, aux)⟩
    else Except.ok ⟨hist, none⟩

/-- The weight_normalization flags of all `attSeqPool` nodes occurring in a
symbolic tensor, in construction order. -/
def attNormFlags : Tensor → List Bool
  | Tensor.var _ => []
  | Tensor.dynamicGRU _ _ _ _ x l => attNormFlags x ++ attNormFlags l
  | Tensor.dynamicGRUAtt _ _ _ _ x l a => attNormFlags x ++ attNormFlags l ++ attNormFlags a
  | Tensor.attSeqPool _ _ wn _ q k l =>
      wn :: (attNormFlags q ++ attNormFlags k ++ attNormFlags l)
  | Tensor.sliceDropLast t => attNormFlags t
  | Tensor.sliceDropFirst t => attNormFlags t
  | Tensor.subtractOne t => attNormFlags t
  | Tensor.permute21 t => attNormFlags t
  | Tensor.mul a b => attNormFlags a ++ attNormFlags b
  | Tensor.auxLossT a b c d _ =>
      attNormFlags a ++ attNormFlags b ++ attNormFlags c ++ attNormFlags d

/-- The attention weight_normalization flags occurring in the hist tensor of
a built DIEN model. -/
def DIENHistFlags : Except String DIENModel → List Bool
  | Except.ok m => attNormFlags m.hist
  | Except.error _ => []

/-- The hist component of an `interest_evolution` result. -/
def histOf : Except String (Tensor × Option Tensor) → Option Tensor
  | Except.ok (h, _) => some h
  | Except.error _ => none

/-- The hidden-states argument handed to the auxiliary-loss node of an
`interest_evolution` result, if an auxiliary loss was built. -/
def auxHiddenArg : Except String (Tensor × Option Tensor) → Option Tensor
  | Except.ok (_, some (Tensor.auxLossT h _ _ _ _)) => some h
  | _ => none

/-- Concrete opaque input tensors used by the concrete-instance theorems. -/
def kbT : Tensor := Tensor.var "keys_emb"

def qbT : Tensor := Tensor.var "query_emb"

def lenT : Tensor := Tensor.var "seq_length"

def negT : Tensor := Tensor.var "neg_concat_behavior"

/-- The stage-1 GRU node built at dien.py lines 98-99 (embedding_size 8). -/
def g1T : Tensor := Tensor.dynamicGRU 16 "GRU" true "gru1" kbT lenT

/-- The attention-score node built at dien.py lines 121-122 for the
non-GRU variants, with weight normalization on. -/
def scoresT : Tensor := Tensor.attSeqPool [64, 16] "sigmoid" true true qbT g1T lenT

/-- The stage-2 AUGRU node built at dien.py lines 129-130. -/
def g2T : Tensor := Tensor.dynamicGRUAtt 16 "AUGRU" false "gru2" g1T lenT
  (Tensor.permute21 scoresT)

/-- C1 counterexample: with negative sampling enabled and a negative item
sequence supplied but gru_type "GRU", `interest_evolution` succeeds with NO
auxiliary loss (the second component is `none`), contradicting the claim
that the auxiliary loss is computed regardless of the variant. -/
theorem claim_C1_counterexample :
    interest_evolution kbT qbT lenT "GRU" true (some negT) 8 [64, 16] "sigmoid" true =
      Except.ok (Tensor.attSeqPool [64, 16] "sigmoid" true false qbT
        (Tensor.dynamicGRU 16 "GRU" true "gru2" g1T lenT) lenT, none) := rfl

/-- C1 (amended): with negative sampling enabled, the auxiliary loss is
computed and returned by `interest_evolution`, and `DIEN` adds it scaled by
alpha, exactly when the variant is AUGRU. -/
theorem claim_C1_amended (alpha : ℝ) (es : Nat) (ahs : List Nat) (aact : String) (awn : Bool) :
    DIEN "AUGRU" true alpha es ahs aact awn =
      Except.ok ⟨Tensor.dynamicGRUAtt (es * 2) "AUGRU" false "gru2"
          (Tensor.dynamicGRU (es * 2) "GRU" true "gru1" (Tensor.var "keys_emb")
            (Tensor.var "seq_length"))
          (Tensor.var "seq_length")
          (Tensor.permute21 (Tensor.attSeqPool ahs aact awn true (Tensor.var "query_emb")
            (Tensor.dynamicGRU (es * 2) "GRU" true "gru1" (Tensor.var "keys_emb")
              (Tensor.var "seq_length"))
            (Tensor.var "seq_length"))),
        some (alpha, Tensor.auxLossT
          (Tensor.sliceDropLast (Tensor.dynamicGRU (es * 2) "GRU" true "gru1"
            (Tensor.var "keys_emb") (Tensor.var "seq_length")))
          (Tensor.sliceDropFirst (Tensor.var "keys_emb"))
          (Tensor.sliceDropFirst (Tensor.var "neg_concat_behavior"))
          (Tensor.subtractOne (Tensor.var "seq_length")) "gru")⟩ := rfl

/-- C4 counterexample: in the AUGRU configuration with negative sampling,
the hidden-states argument of the auxiliary loss is the (sliced) stage-1
GRU output `gru1`, while the stage-2 recurrence is the distinct `gru2`
node; the auxiliary classifier is NOT fed stage-2 hidden states. -/
theorem claim_C4_counterexample :
    auxHiddenArg (interest_evolution kbT qbT lenT "AUGRU" true (some negT)
        8 [64, 16] "sigmoid" true) = some (Tensor.sliceDropLast g1T) ∧
    histOf (interest_evolution kbT qbT lenT "AUGRU" true (some negT)
        8 [64, 16] "sigmoid" true) = some g2T ∧
    Tensor.sliceDropLast g1T ≠ Tensor.sliceDropLast g2T := by
  refine ⟨rfl, rfl, ?_⟩
  decide

/-- C4 (amended): for each example and valid transition, the two feature
vectors fed to the auxiliary classifier come from the STAGE-1 (first
recurrent pass) hidden states: `interest_evolution` wires
`auxiliary_loss(rnn_outputs[:, :-1, :], concat_behavior[:, 1:, :],
neg_concat_behavior[:, 1:, :], length - 1)` where `rnn_outputs` is the
stage-1 `gru1` layer output, computed before any stage-2 node exists. -/
theorem claim_C4_amended (cb di len neg : Tensor) (es : Nat) (ahs : List Nat)
    (aact : String) (awn : Bool) :
    interest_evolution cb di len "AUGRU" true (some neg) es ahs aact awn =
      Except.ok (Tensor.dynamicGRUAtt (es * 2) "AUGRU" false "gru2"
          (Tensor.dynamicGRU (es * 2) "GRU" true "gru1" cb len) len
          (Tensor.permute21 (Tensor.attSeqPool ahs aact awn true di
            (Tensor.dynamicGRU (es * 2) "GRU" true "gru1" cb len) len)),
        some (Tensor.auxLossT
          (Tensor.sliceDropLast (Tensor.dynamicGRU (es * 2) "GRU" true "gru1" cb len))
          (Tensor.sliceDropFirst cb) (Tensor.sliceDropFirst neg)
          (Tensor.subtractOne len) "gru")) := rfl

/-- C6 counterexample: under the DIEN default att_weight_normalization =
true, the attention node driving the AUGRU stage-2 gate has weight
normalization ON, and it is the very same flag value as in the GRU
variant pooling: the behavior does not differ by variant. -/
theorem claim_C6_counterexample :
    DIENHistFlags (DIEN "AUGRU" false 1 8 [64, 16] "dice" true) = [true] ∧
    DIENHistFlags (DIEN "GRU" false 1 8 [64, 16] "dice" true) = [true] := ⟨rfl, rfl⟩

/-- C6 (amended): a single `att_weight_normalization` flag is applied
uniformly: for every valid variant, the one attention node in the built
hist graph carries exactly the flag passed to `DIEN`, so normalization
does not differ by variant. -/
theorem claim_C6_amended (g : String) (hg : g ∈ gru_types) (alpha : ℝ) (es : Nat)
    (ahs : List Nat) (aact : String) (awn : Bool) :
    DIENHistFlags (DIEN g false alpha es ahs aact awn) = [awn] := by
  have hg4 : g = "GRU" ∨ g = "AIGRU" ∨ g = "AGRU" ∨ g = "AUGRU" := by
    simpa [gru_types] using hg
  rcases hg4 with rfl | rfl | rfl | rfl <;> rfl

/-- C6 witness: instance of the amended claim at variant AGRU with the
flag off. -/
theorem claim_C6_witness :
    "AGRU" ∈ gru_types ∧
    DIENHistFlags (DIEN "AGRU" false 1 8 [64, 16] "dice" false) = [false] :=
  ⟨by decide, claim_C6_amended "AGRU" (by decide) 1 8 [64, 16] "dice" false⟩

/-- C7: for every gru_type outside {GRU, AIGRU, AGRU, AUGRU},
`interest_evolution` fails fast with the ValueError "gru_type error "
before constructing any recurrent or attention node: the result is the
bare error, containing no tensor. -/
theorem claim_C7 (cb di len : Tensor) (g : String) (usen : Bool) (negopt : Option Tensor)
    (es : Nat) (ahs : List Nat) (aact : String) (awn : Bool) (h : g ∉ gru_types) :
    interest_evolution cb di len g usen negopt es ahs aact awn =
      Except.error "gru_type error " := by
  unfold interest_evolution
  rw [if_neg h]

/-- C7 witness: the unknown variant name LSTM is rejected. -/
theorem claim_C7_witness :
    "LSTM" ∉ gru_types ∧
    interest_evolution kbT qbT lenT "LSTM" false none 8 [64, 16] "sigmoid" false =
      Except.error "gru_type error " :=
  ⟨by decide, claim_C7 kbT qbT lenT "LSTM" false none 8 [64, 16] "sigmoid" false (by decide)⟩

/-- C10: for every valid variant other than AUGRU, building DIEN with
use_negsampling = true fails with the TypeError raised by evaluating
`alpha * aux_loss_1` with `aux_loss_1 = None`, instead of returning a
model. -/
theorem claim_C10 (g : String) (hg : g ∈ (["GRU", "AIGRU", "AGRU"] : List String))
    (alpha : ℝ) (es : Nat) (ahs : List Nat) (aact : String) (awn : Bool) :
    DIEN g true alpha es ahs aact awn =
      Except.error "TypeError: unsupported operand type for mul: float and NoneType" := by
  have hg3 : g = "GRU" ∨ g = "AIGRU" ∨ g = "AGRU" := by simpa using hg
  rcases hg3 with rfl | rfl | rfl <;> rfl

/-- C10 witness: the GRU variant with negative sampling crashes DIEN. -/
theorem claim_C10_witness :
    "GRU" ∈ (["GRU", "AIGRU", "AGRU"] : List String) ∧
    DIEN "GRU" true 1 8 [64, 16] "dice" true =
      Except.error "TypeError: unsupported operand type for mul: float and NoneType" :=
  ⟨by decide, claim_C10 "GRU" (by decide) 1 8 [64, 16] "dice" true⟩

/-- The logistic sigmoid, `tf.nn.sigmoid`. -/
noncomputable def sigmoid (x : ℝ) : ℝ := 1 / (1 + Real.exp (-x))

/-- Inference-mode parameters of `tf.layers.batch_normalization`:
per-feature scale, offset, moving mean, moving variance, and epsilon. -/
structure BNParams (n : Nat) where
  gamma : Fin n → ℝ
  beta : Fin n → ℝ
  mean : Fin n → ℝ
  movVar : Fin n → ℝ
  eps : ℝ

/-- Parameters of a `tf.layers.dense` layer with m inputs and k units. -/
structure DenseParams (m k : Nat) where
  W : Fin k → Fin m → ℝ
  b : Fin k → ℝ

/-- The TensorFlow variable store seen by `auxiliary_net` under
`reuse=tf.AUTO_REUSE`: variables are identified by their name strings
("bn1" ++ stag, "f1" ++ stag, "f2" ++ stag, "f3" ++ stag), so two calls
with the same stag read the same variables.  n is the feature dimension
of the classifier input. -/
structure TFVars (n : Nat) where
  bnVar : String → BNParams n
  f1Var : String → DenseParams n 100
  f2Var : String → DenseParams 100 50
  f3Var : String → DenseParams 50 1

/-- `tf.layers.batch_normalization` in inference mode. -/
noncomputable def batchNorm {n : Nat} (p : BNParams n) (x : Fin n → ℝ) : Fin n → ℝ :=
  fun i => p.gamma i * ((x i - p.mean i) / Real.sqrt (p.movVar i + p.eps)) + p.beta i

/-- `tf.layers.dense` with no activation. -/
noncomputable def dense {m k : Nat} (p : DenseParams m k) (x : Fin m → ℝ) : Fin k → ℝ :=
  fun j => (∑ i, p.W j i * x i) + p.b j

/-- Embedding of `auxiliary_net` (dien.py lines 69-89): batch norm, then
three dense layers of widths 100, 50, 1, each followed by a sigmoid; the
final `[:, :, 0]` projection makes the output the single unit 0.  The
variables are fetched from the store by name, as `tf.AUTO_REUSE` does. -/
noncomputable def auxiliary_net {n : Nat} (v : TFVars n) (x : Fin n → ℝ) (stag : String) : ℝ :=
  sigmoid (dense (v.f3Var ("f3" ++ stag))
    (fun k => sigmoid (dense (v.f2Var ("f2" ++ stag))
      (fun j => sigmoid (dense (v.f1Var ("f1" ++ stag))
        (batchNorm (v.bnVar ("bn1" ++ stag)) x) j)) k)) 0)

/-- The click probability of dien.py line 52: `auxiliary_net` applied to
`tf.concat([h_states, click_seq], -1)` at example b, transition t. -/
noncomputable def aux_click_prop {B Tm1 H E : Nat} (v : TFVars (H + E))
    (h_states : Fin B → Fin Tm1 → Fin H → ℝ) (click_seq : Fin B → Fin Tm1 → Fin E → ℝ)
    (stag : String) (b : Fin B) (t : Fin Tm1) : ℝ :=
  auxiliary_net v (Fin.append (h_states b t) (click_seq b t)) stag

/-- The no-click probability of dien.py lines 54-55: `auxiliary_net`
applied to `tf.concat([h_states, noclick_seq], -1)`, with the same stag
(hence the same variables) as the click branch. -/
noncomputable def aux_noclick_prop {B Tm1 H E : Nat} (v : TFVars (H + E))
    (h_states : Fin B → Fin Tm1 → Fin H → ℝ) (noclick_seq : Fin B → Fin Tm1 → Fin E → ℝ)
    (stag : String) (b : Fin B) (t : Fin Tm1) : ℝ :=
  auxiliary_net v (Fin.append (h_states b t) (noclick_seq b t)) stag

/-- One row of `tf.sequence_mask(len, T)` cast to float: 1 at positions
below len, else 0. -/
noncomputable def seqMask1 (len : ℤ) (t : Nat) : ℝ := if (t : ℤ) < len then 1 else 0

/-- Embedding of `auxiliary_loss` (dien.py lines 35-66): per slot (b, t)
the terms `-log(click_prop) * mask` and `-log(1 - noclick_prop) * mask`,
then `tf.reduce_mean` over the whole [B, T-1] tensor, i.e. division by
B * (T-1). -/
noncomputable def auxiliary_loss {B Tm1 H E : Nat} (v : TFVars (H + E))
    (h_states : Fin B → Fin Tm1 → Fin H → ℝ)
    (click_seq noclick_seq : Fin B → Fin Tm1 → Fin E → ℝ)
    (mask : Fin B → ℤ) (stag : String) : ℝ :=
  (∑ b, ∑ t, (-Real.log (aux_click_prop v h_states click_seq stag b t) * seqMask1 (mask b) t
      + -Real.log (1 - aux_noclick_prop v h_states noclick_seq stag b t) * seqMask1 (mask b) t))
    / ((B : ℝ) * (Tm1 : ℝ))

/-- The averaging rule as the SPEC states it (spec section 4.5): the same
masked per-transition terms, but divided by the number of valid
(example, transition) pairs in the batch instead of by B * (T-1). -/
noncomputable def auxiliary_loss_specAvg {B Tm1 H E : Nat} (v : TFVars (H + E))
    (h_states : Fin B → Fin Tm1 → Fin H → ℝ)
    (click_seq noclick_seq : Fin B → Fin Tm1 → Fin E → ℝ)
    (mask : Fin B → ℤ) (stag : String) : ℝ :=
  (∑ b, ∑ t, (-Real.log (aux_click_prop v h_states click_seq stag b t) * seqMask1 (mask b) t
      + -Real.log (1 - aux_noclick_prop v h_states noclick_seq stag b t) * seqMask1 (mask b) t))
    / (∑ b, ∑ t : Fin Tm1, seqMask1 (mask b) t)

/-- All-zero batch-norm parameters (the value is irrelevant to the
evaluations below because the following dense weights are zero). -/
noncomputable def zeroBN (n : Nat) : BNParams n :=
  ⟨fun _ => 0, fun _ => 0, fun _ => 0, fun _ => 1, 0⟩

/-- A dense layer with all weights and biases zero. -/
noncomputable def zeroDense (m k : Nat) : DenseParams m k :=
  ⟨fun _ _ => 0, fun _ => 0⟩

/-- A dense layer with zero weights and constant bias c. -/
noncomputable def biasOnlyDense (m k : Nat) (c : ℝ) : DenseParams m k :=
  ⟨fun _ _ => 0, fun _ => c⟩

/-- A variable store in which every f3 variable has zero weights and bias
c, and all other variables are zero. -/
noncomputable def constVars (n : Nat) (c : ℝ) : TFVars n :=
  ⟨fun _ => zeroBN n, fun _ => zeroDense n 100, fun _ => zeroDense 100 50,
    fun _ => biasOnlyDense 50 1 c⟩

/-- If the f3 variable read by `auxiliary_net` has zero weights and bias c,
the output is sigmoid c, whatever the input and the other variables. -/
theorem auxiliary_net_biasOnly {n : Nat} (v : TFVars n) (x : Fin n → ℝ) (stag : String)
    (c : ℝ) (h3 : v.f3Var ("f3" ++ stag) = biasOnlyDense 50 1 c) :
    auxiliary_net v x stag = sigmoid c := by
  unfold auxiliary_net
  rw [h3]
  simp [dense, biasOnlyDense]

theorem sigmoid_zero : sigmoid 0 = 1 / 2 := by
  simp [sigmoid, Real.exp_zero]
  norm_num

theorem sigmoid_pos (x : ℝ) : 0 < sigmoid x := by
  unfold sigmoid
  positivity

theorem sigmoid_lt_one (x : ℝ) : sigmoid x < 1 := by
  unfold sigmoid
  rw [div_lt_one (by positivity)]
  linarith [Real.exp_pos (-x)]

theorem sigmoid_neg_eq (c : ℝ) : sigmoid (-c) = 1 / (1 + Real.exp c) := by
  simp [sigmoid]

theorem neg_log_sigmoid_neg (c : ℝ) :
    -Real.log (sigmoid (-c)) = Real.log (1 + Real.exp c) := by
  rw [sigmoid_neg_eq, one_div, Real.log_inv, neg_neg]

theorem lt_log_one_add_exp (c : ℝ) : c < Real.log (1 + Real.exp c) := by
  rw [Real.lt_log_iff_exp_lt (by positivity)]
  linarith

/-- C3 counterexample: B = 1, T-1 = 2, valid length 1 (one valid
transition), all-zero inputs, f3 bias 0 so every probability is 1/2.  The
code loss (reduce_mean over all 2 slots) is log 2, while the spec average
over the single valid transition is 2 log 2: the two disagree. -/
theorem claim_C3_counterexample :
    @auxiliary_loss 1 2 1 1 (constVars 2 0) (fun _ _ _ => 0) (fun _ _ _ => 0)
        (fun _ _ _ => 0) (fun _ => 1) "gru" ≠
      @auxiliary_loss_specAvg 1 2 1 1 (constVars 2 0) (fun _ _ _ => 0) (fun _ _ _ => 0)
        (fun _ _ _ => 0) (fun _ => 1) "gru" := by
  have hnet : ∀ x : Fin 2 → ℝ, auxiliary_net (constVars 2 0) x "gru" = 1 / 2 := by
    intro x
    rw [auxiliary_net_biasOnly (constVars 2 0) x "gru" 0 rfl, sigmoid_zero]
  have hL : @auxiliary_loss 1 2 1 1 (constVars 2 0) (fun _ _ _ => 0) (fun _ _ _ => 0)
      (fun _ _ _ => 0) (fun _ => 1) "gru" = Real.log 2 := by
    unfold auxiliary_loss
    simp only [aux_click_prop, aux_noclick_prop, hnet]
    rw [Fin.sum_univ_one, Fin.sum_univ_two]
    norm_num [seqMask1]
    rw [one_div, Real.log_inv]
    ring
  have hR : @auxiliary_loss_specAvg 1 2 1 1 (constVars 2 0) (fun _ _ _ => 0) (fun _ _ _ => 0)
      (fun _ _ _ => 0) (fun _ => 1) "gru" = 2 * Real.log 2 := by
    unfold auxiliary_loss_specAvg
    simp only [aux_click_prop, aux_noclick_prop, hnet]
    rw [Fin.sum_univ_one, Fin.sum_univ_one, Fin.sum_univ_two, Fin.sum_univ_two]
    norm_num [seqMask1]
    rw [one_div, Real.log_inv]
    ring
  rw [hL, hR]
  have h2 := Real.log_pos (by norm_num : (1 : ℝ) < 2)
  intro heq
  linarith

/-- C3 (amended): the auxiliary loss is the sum, over exactly the valid
(example, transition) pairs, of `-log(p_click) - log(1 - p_noclick)`
(terms at invalid transitions contribute zero), divided by the TOTAL
number of slots B * (T-1) — not by the number of valid transitions. -/
theorem claim_C3_amended {B Tm1 H E : Nat} (v : TFVars (H + E))
    (h_states : Fin B → Fin Tm1 → Fin H → ℝ)
    (click_seq noclick_seq : Fin B → Fin Tm1 → Fin E → ℝ)
    (mask : Fin B → ℤ) (stag : String) :
    auxiliary_loss v h_states click_seq noclick_seq mask stag =
      (∑ b, ∑ t ∈ Finset.filter (fun t : Fin Tm1 => ((t : Nat) : ℤ) < mask b) Finset.univ,
        (-Real.log (aux_click_prop v h_states click_seq stag b t)
          + -Real.log (1 - aux_noclick_prop v h_states noclick_seq stag b t)))
        / ((B : ℝ) * (Tm1 : ℝ)) := by
  unfold auxiliary_loss
  congr 1
  refine Finset.sum_congr rfl fun b _ => ?_
  rw [Finset.sum_filter]
  refine Finset.sum_congr rfl fun t _ => ?_
  unfold seqMask1
  split_ifs <;> ring

/-- The all-zero store with f3 bias 0 used by the shared-parameter
arguments. -/
noncomputable def storeA : TFVars 2 := constVars 2 0

/-- storeA with the single variable named f3gru changed (bias -1). -/
noncomputable def storeB : TFVars 2 :=
  { storeA with
    f3Var := fun s => if s = "f3gru" then biasOnlyDense 50 1 (-1) else storeA.f3Var s }

/-- storeA with a variable of an unrelated name changed; all variables the
auxiliary net reads under stag "gru" are untouched. -/
noncomputable def storeC : TFVars 2 :=
  { storeA with
    f3Var := fun s => if s = "f3other" then biasOnlyDense 50 1 5 else storeA.f3Var s }

/-- C5 counterexample: changing the single TensorFlow variable f3gru
(from storeA to storeB) changes the click probability AND the no-click
probability at the same concrete input: one parameter set serves both
branches, so the branches cannot have separate (disjoint) parameters. -/
theorem claim_C5_counterexample :
    @aux_click_prop 1 1 1 1 storeA (fun _ _ _ => 0) (fun _ _ _ => 0) "gru" 0 0 ≠
      @aux_click_prop 1 1 1 1 storeB (fun _ _ _ => 0) (fun _ _ _ => 0) "gru" 0 0 ∧
    @aux_noclick_prop 1 1 1 1 storeA (fun _ _ _ => 0) (fun _ _ _ => 0) "gru" 0 0 ≠
      @aux_noclick_prop 1 1 1 1 storeB (fun _ _ _ => 0) (fun _ _ _ => 0) "gru" 0 0 := by
  have hA : ∀ x : Fin 2 → ℝ, auxiliary_net storeA x "gru" = 1 / 2 := by
    intro x
    rw [auxiliary_net_biasOnly storeA x "gru" 0 rfl, sigmoid_zero]
  have hB : ∀ x : Fin 2 → ℝ, auxiliary_net storeB x "gru" = sigmoid (-1) := by
    intro x
    exact auxiliary_net_biasOnly storeB x "gru" (-1) rfl
  have he : (1 : ℝ) < Real.exp 1 := by
    have := Real.add_one_lt_exp (by norm_num : (1 : ℝ) ≠ 0)
    linarith
  have hlt : sigmoid (-1) < 1 / 2 := by
    rw [sigmoid_neg_eq]
    exact one_div_lt_one_div_of_lt (by norm_num) (by linarith)
  constructor
  · unfold aux_click_prop
    rw [hA, hB]
    exact ne_of_gt hlt
  · unfold aux_noclick_prop
    rw [hA, hB]
    exact ne_of_gt hlt

/-- C5 (amended): the click and no-click branches share ONE parameter set:
the loss is fully determined by the four variables bn1/f1/f2/f3 under the
single stag name scope (both `auxiliary_net` calls pass the same stag, and
`reuse=tf.AUTO_REUSE` makes equal names the same variables), so any two
stores agreeing on those four names give the same loss. -/
theorem claim_C5_amended {B Tm1 H E : Nat} (v w : TFVars (H + E)) (stag : String)
    (h_states : Fin B → Fin Tm1 → Fin H → ℝ)
    (click_seq noclick_seq : Fin B → Fin Tm1 → Fin E → ℝ) (mask : Fin B → ℤ)
    (hbn : v.bnVar ("bn1" ++ stag) = w.bnVar ("bn1" ++ stag))
    (h1 : v.f1Var ("f1" ++ stag) = w.f1Var ("f1" ++ stag))
    (h2 : v.f2Var ("f2" ++ stag) = w.f2Var ("f2" ++ stag))
    (h3 : v.f3Var ("f3" ++ stag) = w.f3Var ("f3" ++ stag)) :
    auxiliary_loss v h_states click_seq noclick_seq mask stag =
      auxiliary_loss w h_states click_seq noclick_seq mask stag := by
  unfold auxiliary_loss aux_click_prop aux_noclick_prop auxiliary_net
  simp only [hbn, h1, h2, h3]

/-- C5 witness: storeA and storeC differ at a variable of an unrelated
name but agree on the four gru-scoped variables, so the losses agree. -/
theorem claim_C5_witness :
    storeA.bnVar ("bn1" ++ "gru") = storeC.bnVar ("bn1" ++ "gru") ∧
    storeA.f1Var ("f1" ++ "gru") = storeC.f1Var ("f1" ++ "gru") ∧
    storeA.f2Var ("f2" ++ "gru") = storeC.f2Var ("f2" ++ "gru") ∧
    storeA.f3Var ("f3" ++ "gru") = storeC.f3Var ("f3" ++ "gru") ∧
    @auxiliary_loss 1 1 1 1 storeA (fun _ _ _ => 0) (fun _ _ _ => 0) (fun _ _ _ => 0)
        (fun _ => 1) "gru" =
      @auxiliary_loss 1 1 1 1 storeC (fun _ _ _ => 0) (fun _ _ _ => 0) (fun _ _ _ => 0)
        (fun _ => 1) "gru" :=
  ⟨rfl, rfl, rfl, rfl,
    @claim_C5_amended 1 1 1 1 storeA storeC "gru" (fun _ _ _ => 0) (fun _ _ _ => 0)
      (fun _ _ _ => 0) (fun _ => 1) rfl rfl rfl rfl⟩

/-- C8 counterexample: with zero weights and f3 bias -100, the argument of
the click log is sigmoid(-100) < exp(-100): nothing clamps it away from 0,
and the resulting loss exceeds 100 (any clamp at a constant epsilon would
bound the loss by -log(epsilon)). -/
theorem claim_C8_counterexample :
    auxiliary_net (constVars 2 (-100)) (fun _ => 0) "gru" < Real.exp (-100) ∧
    100 < @auxiliary_loss 1 1 1 1 (constVars 2 (-100)) (fun _ _ _ => 0) (fun _ _ _ => 0)
        (fun _ _ _ => 0) (fun _ => 1) "gru" := by
  have hnet : ∀ x : Fin 2 → ℝ, auxiliary_net (constVars 2 (-100)) x "gru" = sigmoid (-100) :=
    fun x => auxiliary_net_biasOnly (constVars 2 (-100)) x "gru" (-100) rfl
  have hexp : (0 : ℝ) < Real.exp 100 := Real.exp_pos _
  constructor
  · rw [hnet, sigmoid_neg_eq, Real.exp_neg, ← one_div]
    exact one_div_lt_one_div_of_lt hexp (by linarith)
  · have hp1 : 0 < sigmoid (-100) := sigmoid_pos _
    have hp2 : sigmoid (-100) < 1 := sigmoid_lt_one _
    have hA : 100 < -Real.log (sigmoid (-100)) := by
      rw [neg_log_sigmoid_neg]
      exact lt_log_one_add_exp 100
    have hBpos : 0 < -Real.log (1 - sigmoid (-100)) := by
      have hneg : Real.log (1 - sigmoid (-100)) < 0 :=
        Real.log_neg (by linarith) (by linarith)
      linarith
    unfold auxiliary_loss
    simp only [aux_click_prop, aux_noclick_prop, hnet]
    rw [Fin.sum_univ_one, Fin.sum_univ_one]
    norm_num [seqMask1]
    linarith

/-- C8 (amended): no clamping is applied before the logs: the log
arguments are the raw sigmoid outputs.  In exact real arithmetic these lie
strictly inside (0, 1), so each log is defined, but the loss terms are
unbounded: for every bound M some parameters and input push the click term
above M. -/
theorem claim_C8_amended :
    (∀ (n : Nat) (v : TFVars n) (x : Fin n → ℝ) (stag : String),
        0 < auxiliary_net v x stag ∧ auxiliary_net v x stag < 1) ∧
    (∀ M : ℝ, ∃ v : TFVars 2, ∃ x : Fin 2 → ℝ,
        M < -Real.log (auxiliary_net v x "gru")) := by
  constructor
  · intro n v x stag
    constructor
    · unfold auxiliary_net
      exact sigmoid_pos _
    · unfold auxiliary_net
      exact sigmoid_lt_one _
  · intro M
    refine ⟨constVars 2 (-(M + 1)), fun _ => 0, ?_⟩
    rw [auxiliary_net_biasOnly (constVars 2 (-(M + 1))) (fun _ => 0) "gru" (-(M + 1)) rfl,
      neg_log_sigmoid_neg]
    have := lt_log_one_add_exp (M + 1)
    linarith

/-- Modelled from the spec: the masked recurrence performed by the
`DynamicGRU` layer (deepctr/layers/sequence.py, not among the sources
under review).  `maskedRecur cell L x h0 t` is the hidden state after
processing steps 0 .. t-1 from initial state h0 with valid length L: a
valid step applies the cell to the previous state and the step input,
an invalid step (index ≥ L) carries the previous state forward unchanged
(spec section 4.3 masking rule).  The cell is arbitrary, so this covers
the stage-1 pass and every stage-2 variant (attention weights travel in
the step input). -/
def maskedRecur {H X : Type} (cell : H → X → H) (L : Nat) (x : Nat → X) (h0 : H) : Nat → H
  | 0 => h0
  | t + 1 =>
      if t < L then cell (maskedRecur cell L x h0 t) (x t) else maskedRecur cell L x h0 t

/-- Carry-forward stability: past the valid length the masked recurrence
never changes state. -/
theorem maskedRecur_stable {H X : Type} (cell : H → X → H) (L : Nat) (x : Nat → X)
    (h0 : H) : ∀ t, L ≤ t → maskedRecur cell L x h0 t = maskedRecur cell L x h0 L := by
  intro t
  induction t with
  | zero =>
      intro ht
      rw [Nat.le_zero.mp ht]
  | succ n ih =>
      intro ht
      rcases Nat.eq_or_lt_of_le ht with heq | hlt
      · rw [heq]
      · have hn : L ≤ n := Nat.lt_succ_iff.mp hlt
        calc maskedRecur cell L x h0 (n + 1) = maskedRecur cell L x h0 n := by
              show (if n < L then cell (maskedRecur cell L x h0 n) (x n)
                    else maskedRecur cell L x h0 n) = maskedRecur cell L x h0 n
              rw [if_neg (Nat.not_lt.mpr hn)]
          _ = maskedRecur cell L x h0 L := ih hn

/-- C2: for every cell (hence every variant and both stages), every valid
length L and every step index t ≥ L, the hidden state after step t equals
the hidden state after step L - 1: invalid steps only carry the previous
state forward. -/
theorem claim_C2 {H X : Type} (cell : H → X → H) (L : Nat) (x : Nat → X) (h0 : H)
    (t : Nat) (ht : L ≤ t) :
    maskedRecur cell L x h0 (t + 1) = maskedRecur cell L x h0 ((L - 1) + 1) := by
  have h1 : maskedRecur cell L x h0 (t + 1) = maskedRecur cell L x h0 L :=
    maskedRecur_stable cell L x h0 (t + 1) (Nat.le_succ_of_le ht)
  have h2 : maskedRecur cell L x h0 ((L - 1) + 1) = maskedRecur cell L x h0 L := by
    cases L with
    | zero =>
        show (if 0 < 0 then cell (maskedRecur cell 0 x h0 0) (x 0)
              else maskedRecur cell 0 x h0 0) = maskedRecur cell 0 x h0 0
        rw [if_neg (Nat.lt_irrefl 0)]
    | succ n => rfl
  rw [h1, h2]

/-- C2 witness: an additive cell with valid length 2; the state after
step 4 equals the state after step 1 = 2 - 1. -/
theorem claim_C2_witness :
    2 ≤ 4 ∧
    maskedRecur (fun (h x : Nat) => h + x) 2 (fun i => i) 0 (4 + 1) =
      maskedRecur (fun (h x : Nat) => h + x) 2 (fun i => i) 0 ((2 - 1) + 1) :=
  ⟨by decide, claim_C2 (fun h x => h + x) 2 (fun i => i) 0 4 (by decide)⟩

/-- Modelled from the spec (section 4.3): the parameters of one
GatedRecurrentCell with input dimension E and hidden dimension H. -/
structure GRUParams (E H : Nat) where
  Wr : Fin H → Fin E → ℝ
  Ur : Fin H → Fin H → ℝ
  br : Fin H → ℝ
  Wz : Fin H → Fin E → ℝ
  Uz : Fin H → Fin H → ℝ
  bz : Fin H → ℝ
  Wh : Fin H → Fin E → ℝ
  Uh : Fin H → Fin H → ℝ
  bh : Fin H → ℝ

/-- Modelled from the spec: the reset gate r = sigmoid(Wr x + Ur h + br). -/
noncomputable def resetGate {E H : Nat} (p : GRUParams E H) (h : Fin H → ℝ)
    (x : Fin E → ℝ) (i : Fin H) : ℝ :=
  sigmoid ((∑ j, p.Wr i j * x j) + (∑ j, p.Ur i j * h j) + p.br i)

/-- Modelled from the spec: the update gate z = sigmoid(Wz x + Uz h + bz). -/
noncomputable def updateGate {E H : Nat} (p : GRUParams E H) (h : Fin H → ℝ)
    (x : Fin E → ℝ) (i : Fin H) : ℝ :=
  sigmoid ((∑ j, p.Wz i j * x j) + (∑ j, p.Uz i j * h j) + p.bz i)

/-- Modelled from the spec: the candidate state
c = tanh(Wh x + Uh (r ⊙ h) + bh). -/
noncomputable def candState {E H : Nat} (p : GRUParams E H) (h : Fin H → ℝ)
    (x : Fin E → ℝ) (i : Fin H) : ℝ :=
  Real.tanh ((∑ j, p.Wh i j * x j) + (∑ j, p.Uh i j * (resetGate p h x j * h j)) + p.bh i)

/-- Modelled from the spec: one plain GRU step,
h = (1 - z) ⊙ h + z ⊙ c. -/
noncomputable def gruStep {E H : Nat} (p : GRUParams E H) (h : Fin H → ℝ)
    (x : Fin E → ℝ) : Fin H → ℝ :=
  fun i => (1 - updateGate p h x i) * h i + updateGate p h x i * candState p h x i

/-- Modelled from the spec (section 4.4, AUGRU row): the update gate is
scaled by the scalar attention weight a before the blend,
h = (1 - a z) ⊙ h + (a z) ⊙ c. -/
noncomputable def augruStep {E H : Nat} (p : GRUParams E H) (a : ℝ) (h : Fin H → ℝ)
    (x : Fin E → ℝ) : Fin H → ℝ :=
  fun i => (1 - a * updateGate p h x i) * h i + (a * updateGate p h x i) * candState p h x i

/-- The stage-2 plain GRU recurrence over a masked input sequence. -/
noncomputable def gruRun {E H : Nat} (p : GRUParams E H) (L : Nat) (x : Nat → Fin E → ℝ)
    (h0 : Fin H → ℝ) : Nat → Fin H → ℝ :=
  maskedRecur (fun h xt => gruStep p h xt) L x h0

/-- The stage-2 AUGRU recurrence over a masked input sequence with
per-step attention weights. -/
noncomputable def augruRun {E H : Nat} (p : GRUParams E H) (L : Nat) (a : Nat → ℝ)
    (x : Nat → Fin E → ℝ) (h0 : Fin H → ℝ) : Nat → Fin H → ℝ :=
  maskedRecur (fun h q => augruStep p q.1 h q.2) L (fun t => (a t, x t)) h0

/-- C9: when every attention weight equals 1, the AUGRU stage-2 recurrence
produces exactly the hidden states of the plain GRU stage-2 recurrence
over the same inputs, cell parameters, mask and initial state, since
a * z = z in the blend. -/
theorem claim_C9 {E H : Nat} (p : GRUParams E H) (L : Nat) (x : Nat → Fin E → ℝ)
    (h0 : Fin H → ℝ) (n : Nat) :
    augruRun p L (fun _ => 1) x h0 n = gruRun p L x h0 n := by
  have step : ∀ (h : Fin H → ℝ) (xt : Fin E → ℝ), augruStep p 1 h xt = gruStep p h xt := by
    intro h xt
    funext i
    simp [augruStep, gruStep]
  unfold augruRun gruRun
  induction n with
  | zero => rfl
  | succ m ih =>
      simp only [maskedRecur]
      rw [ih]
      split
      · exact step _ _
      · rfl
